import Mathlib

/-!
Verification development for the local single-instance HTTP control-server
toolkit of this repository.  The Python sources are shallowly embedded:
strings are modelled as `List Char`, the Python operators `in`,
`str.startswith` and `str.replace` as executable Lean functions, and the
stateful request handlers as explicit state-passing functions on a record of
the server's mutable flags and observable side effects.
-/

set_option maxRecDepth 8000

/-- Python substring test: `strContains pat s` models the Python expression
`pat in s` for strings, viewed as lists of characters. -/
def strContains (pat : List Char) : List Char → Bool
  | [] => pat.isEmpty
  | c :: t => pat.isPrefixOf (c :: t) || strContains pat t

/-- Number of starting positions in `s` at which `pat` occurs (for the
nonempty patterns used here, this is the number of occurrences of `pat`
as a substring of `s`). -/
def countOcc (pat : List Char) : List Char → Nat
  | [] => 0
  | c :: t => (if pat.isPrefixOf (c :: t) then 1 else 0) + countOcc pat t

/-- Fuelled version of Python `str.replace`: scans `s` left to right and
replaces each non-overlapping occurrence of `pat` by `rep`.  The fuel
argument (one unit per character scanned or match consumed) makes the
recursion structural, hence kernel-computable; with fuel at least the
length of `s` it computes exactly Python's `s.replace(pat, rep)` for
nonempty `pat`. -/
def strReplaceFuel (pat rep : List Char) : Nat → List Char → List Char
  | 0, s => s
  | _, [] => []
  | fuel + 1, c :: t =>
    if pat ≠ [] ∧ pat.isPrefixOf (c :: t) = true then
      rep ++ strReplaceFuel pat rep fuel (t.drop (pat.length - 1))
    else
      c :: strReplaceFuel pat rep fuel t

/-- Python `s.replace(pat, rep)` for nonempty `pat` (all non-overlapping
occurrences, scanned left to right). -/
def strReplace (pat rep s : List Char) : List Char :=
  strReplaceFuel pat rep s.length s

/-- Check a Boolean predicate on every nonempty suffix of a list. -/
def allSuffixes (P : List Char → Bool) : List Char → Bool
  | [] => true
  | c :: t => P (c :: t) && allSuffixes P t

/-- No occurrence of `pat` starts at any position of `a` in the word
`a ++ rest` (occurrences starting inside `rest` are not constrained). -/
def noOccWithin (pat a rest : List Char) : Bool :=
  allSuffixes (fun s => !(pat.isPrefixOf (s ++ rest))) a

/-- Every occurrence of `pat` in `a ++ b` that starts inside `a` lies
entirely inside `a`: no occurrence crosses the border between `a` and `b`. -/
def noCross (pat a b : List Char) : Bool :=
  allSuffixes (fun s => !(pat.isPrefixOf (s ++ b)) || pat.isPrefixOf s) a

/-- Concatenation of a list of character lists. -/
def concatL (ls : List (List Char)) : List Char :=
  ls.foldr (· ++ ·) []

/-- Chained border condition for `concatL`: no occurrence of `pat` crosses
any of the borders between consecutive pieces. -/
def noCrossChain (pat : List Char) : List (List Char) → Bool
  | [] => true
  | x :: xs => noCross pat x (concatL xs) && noCrossChain pat xs

/-- Chained form of `noOccWithin` over a decomposition into pieces. -/
def noOccChain (pat rest : List Char) : List (List Char) → Bool
  | [] => true
  | x :: xs => noOccWithin pat x (concatL xs ++ rest) && noOccChain pat rest xs

theorem isPrefixOf_self_append (l b : List Char) : l.isPrefixOf (l ++ b) = true := by
  simp [List.isPrefixOf_iff_prefix]

theorem isPrefixOf_extend (p s b : List Char) (h : p.isPrefixOf s = true) :
    p.isPrefixOf (s ++ b) = true := by
  rw [List.isPrefixOf_iff_prefix] at h ⊢
  exact h.trans (List.prefix_append s b)

theorem strContains_nil_pat (s : List Char) : strContains [] s = true := by
  cases s <;> simp [strContains, List.isPrefixOf]

theorem strContains_append_right (pat a b : List Char) (h : strContains pat b = true) :
    strContains pat (a ++ b) = true := by
  induction a with
  | nil => simpa using h
  | cons c t ih => simp [strContains, ih]

theorem strContains_append_left (pat a b : List Char) (h : strContains pat a = true) :
    strContains pat (a ++ b) = true := by
  induction a with
  | nil =>
    simp only [strContains, List.isEmpty_iff] at h
    subst h
    exact strContains_nil_pat b
  | cons c t ih =>
    simp only [strContains, Bool.or_eq_true] at h ⊢
    rcases h with h | h
    · exact Or.inl (isPrefixOf_extend _ _ _ h)
    · exact Or.inr (ih h)

theorem strContains_concat_right (pat x : List Char) (ls : List (List Char))
    (h : strContains pat (concatL ls) = true) :
    strContains pat (concatL (x :: ls)) = true := by
  simpa [concatL] using strContains_append_right pat x (concatL ls) h

theorem strContains_concat_here (pat x : List Char) (ls : List (List Char))
    (h : strContains pat x = true) :
    strContains pat (concatL (x :: ls)) = true := by
  simpa [concatL] using strContains_append_left pat x (concatL ls) h

theorem allSuffixes_congr (P Q : List Char → Bool) (l : List Char)
    (h : ∀ s, P s = Q s) : allSuffixes P l = allSuffixes Q l := by
  induction l with
  | nil => rfl
  | cons c t ih => simp [allSuffixes, h, ih]

theorem allSuffixes_append (P : List Char → Bool) (x y : List Char) :
    allSuffixes P (x ++ y)
      = (allSuffixes (fun s => P (s ++ y)) x && allSuffixes P y) := by
  induction x with
  | nil => simp [allSuffixes]
  | cons c t ih => simp [allSuffixes, ih, Bool.and_assoc]

theorem noOccWithin_append (pat x y rest : List Char) :
    noOccWithin pat (x ++ y) rest
      = (noOccWithin pat x (y ++ rest) && noOccWithin pat y rest) := by
  unfold noOccWithin
  rw [allSuffixes_append]
  congr 1
  exact allSuffixes_congr _ _ x (fun s => by rw [List.append_assoc])

theorem noOccWithin_of_chain (pat rest : List Char) (ls : List (List Char))
    (h : noOccChain pat rest ls = true) :
    noOccWithin pat (concatL ls) rest = true := by
  induction ls with
  | nil => rfl
  | cons x xs ih =>
    simp only [noOccChain, Bool.and_eq_true] at h
    show noOccWithin pat (x ++ concatL xs) rest = true
    rw [noOccWithin_append, Bool.and_eq_true]
    exact ⟨h.1, ih h.2⟩

theorem countOcc_append (pat a b : List Char) (h : noCross pat a b = true) :
    countOcc pat (a ++ b) = countOcc pat a + countOcc pat b := by
  induction a with
  | nil => simp [countOcc]
  | cons c t ih =>
    simp only [noCross, allSuffixes, Bool.and_eq_true] at h
    have hhead := h.1
    have htail : noCross pat t b = true := h.2
    show countOcc pat (c :: (t ++ b)) = countOcc pat (c :: t) + countOcc pat b
    simp only [countOcc]
    rw [ih htail]
    have : (if pat.isPrefixOf (c :: (t ++ b)) then 1 else 0)
        = (if pat.isPrefixOf (c :: t) then 1 else 0) := by
      rcases hpre : pat.isPrefixOf (c :: t) with _ | _
      · rcases hbig : pat.isPrefixOf (c :: (t ++ b)) with _ | _
        · simp
        · exfalso
          rw [Bool.or_eq_true, Bool.not_eq_true'] at hhead
          rcases hhead with h' | h'
          · rw [show (c :: t) ++ b = c :: (t ++ b) from rfl] at h'
            rw [h'] at hbig; exact Bool.false_ne_true hbig
          · rw [h'] at hpre; simp at hpre
      · have : pat.isPrefixOf (c :: (t ++ b)) = true := by
          have := isPrefixOf_extend pat (c :: t) b hpre
          simpa using this
        simp [this]
    rw [this]
    omega

theorem countOcc_concat (pat : List Char) (ls : List (List Char))
    (h : noCrossChain pat ls = true) :
    countOcc pat (concatL ls) = (ls.map (countOcc pat)).sum := by
  induction ls with
  | nil => rfl
  | cons x xs ih =>
    simp only [noCrossChain, Bool.and_eq_true] at h
    show countOcc pat (x ++ concatL xs) = _
    rw [countOcc_append pat x (concatL xs) h.1, ih h.2]
    simp

theorem noCross_nil (pat a : List Char) : noCross pat a [] = true := by
  induction a with
  | nil => rfl
  | cons c t ih =>
    simp only [noCross, allSuffixes, Bool.and_eq_true] at ih ⊢
    refine ⟨?_, ih⟩
    rw [List.append_nil]
    exact Bool.not_or_self _

theorem strReplaceFuel_nil (pat rep : List Char) (f : Nat) :
    strReplaceFuel pat rep f [] = [] := by
  cases f <;> rfl

theorem drop_len_append (l b : List Char) : (l ++ b).drop l.length = b := by
  simp

theorem strReplaceFuel_fuel_irrel (pat rep : List Char) :
    ∀ (f₁ : Nat) (s : List Char) (f₂ : Nat), s.length ≤ f₁ → s.length ≤ f₂ →
      strReplaceFuel pat rep f₁ s = strReplaceFuel pat rep f₂ s := by
  intro f₁
  induction f₁ with
  | zero =>
    intro s f₂ h₁ _
    have : s = [] := List.eq_nil_of_length_eq_zero (Nat.le_zero.mp h₁)
    subst this
    rw [strReplaceFuel_nil, strReplaceFuel_nil]
  | succ f ih =>
    intro s f₂ h₁ h₂
    cases s with
    | nil => rw [strReplaceFuel_nil, strReplaceFuel_nil]
    | cons c t =>
      cases f₂ with
      | zero => simp at h₂
      | succ g =>
        simp only [strReplaceFuel]
        split
        · congr 1
          apply ih
          · have : (t.drop (pat.length - 1)).length ≤ t.length := by
              simp [List.length_drop]
            simp only [List.length_cons] at h₁
            omega
          · have : (t.drop (pat.length - 1)).length ≤ t.length := by
              simp [List.length_drop]
            simp only [List.length_cons] at h₂
            omega
        · congr 1
          apply ih
          · simp only [List.length_cons] at h₁; omega
          · simp only [List.length_cons] at h₂; omega

theorem strReplaceFuel_no_occ (pat rep : List Char) :
    ∀ (f : Nat) (s : List Char), strContains pat s = false →
      strReplaceFuel pat rep f s = s := by
  intro f
  induction f with
  | zero => intro s _; cases s <;> rfl
  | succ g ih =>
    intro s h
    cases s with
    | nil => rw [strReplaceFuel_nil]
    | cons c t =>
      simp only [strContains, Bool.or_eq_false_iff] at h
      simp only [strReplaceFuel]
      rw [if_neg (by simp [h.1])]
      rw [ih t h.2]

theorem strReplace_no_occ (pat rep s : List Char) (h : strContains pat s = false) :
    strReplace pat rep s = s :=
  strReplaceFuel_no_occ pat rep s.length s h

theorem strReplaceFuel_split (pat rep b : List Char) (hp : pat ≠ []) :
    ∀ (a : List Char) (f : Nat), (a ++ pat ++ b).length ≤ f →
      noOccWithin pat a (pat ++ b) = true →
      strReplaceFuel pat rep f (a ++ pat ++ b)
        = a ++ rep ++ strReplaceFuel pat rep b.length b := by
  intro a
  induction a with
  | nil =>
    intro f hf _
    rcases pat with _ | ⟨p, pt⟩
    · exact absurd rfl hp
    cases f with
    | zero =>
      exfalso
      simp only [List.nil_append, List.length_append, List.length_cons] at hf
      omega
    | succ g =>
      have hcons : (([] : List Char) ++ (p :: pt) ++ b) = p :: (pt ++ b) := by simp
      rw [hcons]
      show strReplaceFuel (p :: pt) rep (g + 1) (p :: (pt ++ b)) = _
      simp only [strReplaceFuel]
      rw [if_pos ⟨hp, by exact isPrefixOf_self_append (p :: pt) b⟩]
      have hdrop : (pt ++ b).drop ((p :: pt).length - 1) = b := by
        simp only [List.length_cons, Nat.add_sub_cancel]
        exact drop_len_append pt b
      rw [hdrop]
      rw [strReplaceFuel_fuel_irrel (p :: pt) rep g b b.length
            (by simp only [List.nil_append, List.length_append, List.length_cons] at hf
                omega)
            (Nat.le_refl _)]
      simp
  | cons c t ih =>
    intro f hf hno
    simp only [noOccWithin, allSuffixes, Bool.and_eq_true] at hno
    have hhead := hno.1
    have htail : noOccWithin pat t (pat ++ b) = true := hno.2
    cases f with
    | zero => simp at hf
    | succ g =>
      show strReplaceFuel pat rep (g + 1) (c :: (t ++ pat ++ b)) = _
      simp only [strReplaceFuel]
      rw [if_neg (by
        rintro ⟨-, hpre⟩
        rw [Bool.not_eq_true'] at hhead
        rw [show (c :: t) ++ (pat ++ b) = c :: (t ++ pat ++ b) by
              simp [List.append_assoc]] at hhead
        rw [hhead] at hpre
        simp at hpre)]
      rw [ih g (by simp at hf ⊢; omega) htail]
      rfl

theorem strReplace_split (pat rep a b : List Char) (hp : pat ≠ [])
    (hno : noOccWithin pat a (pat ++ b) = true)
    (hb : strContains pat b = false) :
    strReplace pat rep (a ++ pat ++ b) = a ++ rep ++ b := by
  unfold strReplace
  rw [strReplaceFuel_split pat rep b hp a (a ++ pat ++ b).length (Nat.le_refl _) hno]
  rw [strReplaceFuel_no_occ pat rep b.length b hb]
/-- Piece 1 of the module-level constant EXIT_BUTTON_SCRIPT of src/macos/server.py (lines 101-240); the pieces are consecutive and concatenate to the exact source string. Non-identifier characters are hex-escaped. -/
def Server.ebsPart1 : String :=
  "\n<style>\n\x23exit-app-button \x7b\n    position: fixed;\n    bottom: 20px;\n    right: 20px;\n    background-color: \x23f44336;\n    color: white;\n    padding: 10px 20px;\n    border-radius: 5px;\n    border: none;\n    cursor: pointer;\n    z-index: 9999;\n    font-family: Arial, sans-serif;\n    font-size: 14px;\n\x7d\n\x23exit-app-button:hover \x7b\n    background-color: \x23d32f2f;\n\x7d\n.exit-confirmation \x7b\n"

/-- Piece 2 of the module-level constant EXIT_BUTTON_SCRIPT of src/macos/server.py (lines 101-240); the pieces are consecutive and concatenate to the exact source string. Non-identifier characters are hex-escaped. -/
def Server.ebsPart2 : String :=
  "    position: fixed;\n    top: 0;\n    left: 0;\n    width: 100%;\n    height: 100%;\n    background-color: rgba(0,0,0,0.5);\n    display: flex;\n    justify-content: center;\n    align-items: center;\n    z-index: 10000;\n    font-family: Arial, sans-serif;\n\x7d\n.exit-confirmation-box \x7b\n    background-color: white;\n    padding: 20px;\n    border-radius: 5px;\n    text-align: center;\n"

/-- Piece 3 of the module-level constant EXIT_BUTTON_SCRIPT of src/macos/server.py (lines 101-240); the pieces are consecutive and concatenate to the exact source string. Non-identifier characters are hex-escaped. -/
def Server.ebsPart3 : String :=
  "    box-shadow: 0 2px 10px rgba(0,0,0,0.2);\n    max-width: 90%;\n    width: 400px;\n\x7d\n.exit-confirmation-buttons \x7b\n    margin-top: 20px;\n\x7d\n.exit-confirmation-buttons button \x7b\n    padding: 8px 16px;\n    margin: 0 10px;\n    border-radius: 4px;\n    border: none;\n    cursor: pointer;\n\x7d\n.exit-cancel \x7b\n    background-color: \x23e0e0e0;\n\x7d\n.exit-confirm \x7b\n    background-color: \x23f44336;\n"

/-- Piece 4 of the module-level constant EXIT_BUTTON_SCRIPT of src/macos/server.py (lines 101-240); the pieces are consecutive and concatenate to the exact source string. Non-identifier characters are hex-escaped. -/
def Server.ebsPart4 : String :=
  "    color: white;\n\x7d\n</style>\n\n<button id=\"exit-app-button\">Exit App</button>\n<div class=\"exit-confirmation\" id=\"exit-confirmation\" style=\"display: none;\">\n    <div class=\"exit-confirmation-box\">\n        <h2>Confirm Exit</h2>\n        <p>Are you sure you want to exit the application?</p>\n        <div class=\"exit-confirmation-buttons\">\n"

/-- Piece 5 of the module-level constant EXIT_BUTTON_SCRIPT of src/macos/server.py (lines 101-240); the pieces are consecutive and concatenate to the exact source string. Non-identifier characters are hex-escaped. -/
def Server.ebsPart5 : String :=
  "            <button class=\"exit-cancel\" id=\"exit-cancel\">Cancel</button>\n            <button class=\"exit-confirm\" id=\"exit-confirm\">Exit</button>\n        </div>\n    </div>\n</div>\n\n<script>\n// Set up the exit button functionality\n(function() \x7b\n    // Exit button click handler\n    document.getElementById(\x27exit-app-button\x27).addEventListener(\x27click\x27, function() \x7b\n"

/-- Piece 6 of the module-level constant EXIT_BUTTON_SCRIPT of src/macos/server.py (lines 101-240); the pieces are consecutive and concatenate to the exact source string. Non-identifier characters are hex-escaped. -/
def Server.ebsPart6 : String :=
  "        document.getElementById(\x27exit-confirmation\x27).style.display = \x27flex\x27;\n    \x7d);\n    \n    // Cancel exit\n    document.getElementById(\x27exit-cancel\x27).addEventListener(\x27click\x27, function() \x7b\n        document.getElementById(\x27exit-confirmation\x27).style.display = \x27none\x27;\n    \x7d);\n    \n    // Confirm exit\n"

/-- Piece 7 of the module-level constant EXIT_BUTTON_SCRIPT of src/macos/server.py (lines 101-240); the pieces are consecutive and concatenate to the exact source string. Non-identifier characters are hex-escaped. -/
def Server.ebsPart7 : String :=
  "    document.getElementById(\x27exit-confirm\x27).addEventListener(\x27click\x27, function() \x7b\n        document.getElementById(\x27exit-confirmation\x27).style.display = \x27none\x27;\n        \n        // Show loading indicator\n        const loadingHTML = \x60\n            <div style=\"position: fixed; top: 0; left: 0; width: 100%; height: 100%; \n"

/-- Piece 8 of the module-level constant EXIT_BUTTON_SCRIPT of src/macos/server.py (lines 101-240); the pieces are consecutive and concatenate to the exact source string. Non-identifier characters are hex-escaped. -/
def Server.ebsPart8 : String :=
  "                      background-color: rgba(255,255,255,0.9); z-index: 10000;\n                      display: flex; flex-direction: column; \n                      justify-content: center; align-items: center;\">\n                <h1>Shutting down...</h1>\n                <p>Please wait while the application closes.</p>\n            </div>\n        \x60;\n"

/-- Piece 9 of the module-level constant EXIT_BUTTON_SCRIPT of src/macos/server.py (lines 101-240); the pieces are consecutive and concatenate to the exact source string. Non-identifier characters are hex-escaped. -/
def Server.ebsPart9 : String :=
  "        document.body.insertAdjacentHTML(\x27beforeend\x27, loadingHTML);\n        \n        // Send exit request to server\n        fetch(\x27/exit\x27, \x7b \n            method: \x27POST\x27,\n            headers: \x7b\n                \x27Content-Type\x27: \x27application/json\x27,\n                \x27X-Exit-Requested-By\x27: \x27user-interface\x27\n            \x7d\n        \x7d)\n        .then(response => \x7b\n"

/-- Piece 10 of the module-level constant EXIT_BUTTON_SCRIPT of src/macos/server.py (lines 101-240); the pieces are consecutive and concatenate to the exact source string. Non-identifier characters are hex-escaped. -/
def Server.ebsPart10 : String :=
  "            if (!response.ok) \x7b\n                throw new Error(\x27Server responded with an error\x27);\n            \x7d\n            document.body.innerHTML = \x27<div style=\"position: absolute; top: 50%; left: 50%; transform: translate(-50%, -50%); text-align: center;\"><h1>Server shutdown. You can close this window.</h1></div>\x27;\n        \x7d)\n        .catch(err => \x7b\n"

/-- Piece 11 of the module-level constant EXIT_BUTTON_SCRIPT of src/macos/server.py (lines 101-240); the pieces are consecutive and concatenate to the exact source string. Non-identifier characters are hex-escaped. -/
def Server.ebsPart11 : String :=
  "            alert(\x27Error shutting down: \x27 + err);\n        \x7d);\n    \x7d);\n    \n    // Set up the tab close/refresh detector\n    window.addEventListener(\x27beforeunload\x27, function(e) \x7b\n        // Add server shutdown call when tab is closed or refreshed\n        const exitBeacon = new Image();\n        exitBeacon.src = \x27/exit?auto_close=true&t=\x27 + new Date().getTime();\n        \n"

/-- Piece 12 of the module-level constant EXIT_BUTTON_SCRIPT of src/macos/server.py (lines 101-240); the pieces are consecutive and concatenate to the exact source string. Non-identifier characters are hex-escaped. -/
def Server.ebsPart12 : String :=
  "        // Use fetch with keepalive to ensure the request completes\n        // even if the page is being unloaded\n        navigator.sendBeacon(\x27/exit\x27, JSON.stringify(\x7b\n            reason: \x27tab_closed\x27,\n            timestamp: new Date().toISOString()\n        \x7d));\n        \n        // No need to show a confirmation dialog since the app will simply restart\n"

/-- Piece 13 of the module-level constant EXIT_BUTTON_SCRIPT of src/macos/server.py (lines 101-240); the pieces are consecutive and concatenate to the exact source string. Non-identifier characters are hex-escaped. -/
def Server.ebsPart13 : String :=
  "        // We just return undefined to proceed with the close without a confirmation\n        return undefined;\n    \x7d);\n\x7d)();\n</script>\n"

/-- Module-level constant EXIT_BUTTON_SCRIPT of src/macos/server.py (lines 101-240): the exit-control markup (style, button, confirmation dialog and script) injected into the served document.  Defined as the concatenation of its consecutive pieces. -/
def Server.EXIT_BUTTON_SCRIPT : String :=
  Server.ebsPart1 ++ Server.ebsPart2 ++ Server.ebsPart3 ++ Server.ebsPart4 ++ Server.ebsPart5 ++ Server.ebsPart6 ++ Server.ebsPart7 ++ Server.ebsPart8 ++ Server.ebsPart9 ++ Server.ebsPart10 ++ Server.ebsPart11 ++ Server.ebsPart12 ++ Server.ebsPart13

/-- Character-list pieces of EXIT_BUTTON_SCRIPT, for border-wise counting arguments. -/
def Server.ebsChunks : List (List Char) :=
  [Server.ebsPart1.data, Server.ebsPart2.data, Server.ebsPart3.data, Server.ebsPart4.data, Server.ebsPart5.data, Server.ebsPart6.data, Server.ebsPart7.data, Server.ebsPart8.data, Server.ebsPart9.data, Server.ebsPart10.data, Server.ebsPart11.data, Server.ebsPart12.data, Server.ebsPart13.data]

/-- Closing body tag, the anchor before which every injector of this
repository inserts the exit markup. -/
def bodyCloseTag : List Char := "</body>".data

/-- One concrete instance of the exit-control markup: the injected exit
button element.  It occurs exactly once in EXIT_BUTTON_SCRIPT (the CSS and
the script refer to the id with different quoting), so counting its
occurrences counts instances of the injected markup. -/
def exitMarkup : List Char := "<button id=\"exit-app-button\">".data

/-- Method get_modified_html of ServerHandler (src/macos/server.py lines
273-282): always injects EXIT_BUTTON_SCRIPT before the closing body tag,
or appends it at the end when the document has no closing body tag.  The
source decorates the method with lru_cache(maxsize=1); since the method
reads only the fixed html_content, it is a pure function of that content
and the cache is observationally irrelevant, so it is modelled as the
plain function. -/
def Server.get_modified_html (html_content : List Char) : List Char :=
  if strContains bodyCloseTag html_content then
    strReplace bodyCloseTag (Server.EXIT_BUTTON_SCRIPT.data ++ bodyCloseTag) html_content
  else
    html_content ++ Server.EXIT_BUTTON_SCRIPT.data

theorem concatL_append (xs ys : List (List Char)) :
    concatL (xs ++ ys) = concatL xs ++ concatL ys := by
  induction xs with
  | nil => simp [concatL]
  | cons x t ih =>
    show concatL (x :: (t ++ ys)) = concatL (x :: t) ++ concatL ys
    show x ++ concatL (t ++ ys) = (x ++ concatL t) ++ concatL ys
    rw [ih, List.append_assoc]

theorem ebs_data_eq : Server.EXIT_BUTTON_SCRIPT.data = concatL Server.ebsChunks := by
  simp [Server.EXIT_BUTTON_SCRIPT, Server.ebsChunks, concatL, String.data_append,
    List.append_assoc]

theorem ebs_marker_sum : (Server.ebsChunks.map (countOcc exitMarkup)).sum = 1 := by decide

theorem ebs_marker_chain :
    noCrossChain exitMarkup (Server.ebsChunks ++ [bodyCloseTag]) = true := by decide

theorem strContains_self (p : List Char) : strContains p p = true := by
  cases p with
  | nil => rfl
  | cons c t => simp [strContains, List.isPrefixOf_iff_prefix]

theorem ebs_count_one :
    countOcc exitMarkup (Server.EXIT_BUTTON_SCRIPT.data ++ bodyCloseTag) = 1 := by
  have h1 : concatL (Server.ebsChunks ++ [bodyCloseTag])
      = Server.EXIT_BUTTON_SCRIPT.data ++ bodyCloseTag := by
    rw [concatL_append, ← ebs_data_eq]
    simp [concatL]
  rw [← h1, countOcc_concat _ _ ebs_marker_chain, List.map_append, List.sum_append,
    ebs_marker_sum]
  decide

theorem ebs_contains_marker :
    strContains exitMarkup Server.EXIT_BUTTON_SCRIPT.data = true := by
  rw [ebs_data_eq]
  show strContains exitMarkup (concatL [Server.ebsPart1.data, Server.ebsPart2.data,
    Server.ebsPart3.data, Server.ebsPart4.data, Server.ebsPart5.data, Server.ebsPart6.data,
    Server.ebsPart7.data, Server.ebsPart8.data, Server.ebsPart9.data, Server.ebsPart10.data,
    Server.ebsPart11.data, Server.ebsPart12.data, Server.ebsPart13.data]) = true
  apply strContains_concat_right
  apply strContains_concat_right
  apply strContains_concat_right
  apply strContains_concat_here
  decide

theorem get_modified_html_split (a b : List Char)
    (hno : noOccWithin bodyCloseTag a (bodyCloseTag ++ b) = true)
    (hb : strContains bodyCloseTag b = false) :
    Server.get_modified_html (a ++ bodyCloseTag ++ b)
      = a ++ Server.EXIT_BUTTON_SCRIPT.data ++ bodyCloseTag ++ b := by
  have hin : strContains bodyCloseTag (a ++ bodyCloseTag ++ b) = true := by
    rw [List.append_assoc]
    exact strContains_append_right _ _ _
      (strContains_append_left _ _ _ (strContains_self bodyCloseTag))
  unfold Server.get_modified_html
  rw [if_pos hin]
  rw [strReplace_split bodyCloseTag _ a b (by decide) hno hb]
  simp [List.append_assoc]

theorem count_after_injection (a b : List Char)
    (ha : noCross exitMarkup a ((Server.EXIT_BUTTON_SCRIPT.data ++ bodyCloseTag) ++ b) = true)
    (hb : noCross exitMarkup (Server.EXIT_BUTTON_SCRIPT.data ++ bodyCloseTag) b = true) :
    countOcc exitMarkup (a ++ ((Server.EXIT_BUTTON_SCRIPT.data ++ bodyCloseTag) ++ b))
      = countOcc exitMarkup a + 1 + countOcc exitMarkup b := by
  rw [countOcc_append _ _ _ ha, countOcc_append _ _ _ hb, ebs_count_one]
  omega

/-- Verbatim content of the local string exit_button of ensure_exit_button in src/macos/html_handler.py; non-identifier characters are hex-escaped. -/
def HtmlHandler.exit_button : String :=
  "\n<button id=\"exit-app-button\" style=\"position: fixed; bottom: 20px; right: 20px; background-color: \x23f44336; color: white; padding: 10px 20px; border-radius: 5px; border: none; cursor: pointer; z-index: 9999;\">Exit App</button>\n"

/-- Verbatim content of the local string exit_styles of ensure_exit_button in src/macos/html_handler.py; non-identifier characters are hex-escaped. -/
def HtmlHandler.exit_styles : String :=
  "\n<style>\n\x23exit-app-button:hover \x7b\n    background-color: \x23d32f2f;\n\x7d\n.exit-confirmation \x7b\n    position: fixed;\n    top: 0;\n    left: 0;\n    width: 100%;\n    height: 100%;\n    background-color: rgba(0,0,0,0.5);\n    display: flex;\n    justify-content: center;\n    align-items: center;\n    z-index: 10000;\n\x7d\n.exit-confirmation-box \x7b\n    background-color: white;\n    padding: 20px;\n    border-radius: 5px;\n    text-align: center;\n    box-shadow: 0 2px 10px rgba(0,0,0,0.2);\n\x7d\n.exit-confirmation-buttons \x7b\n    margin-top: 20px;\n\x7d\n.exit-confirmation-buttons button \x7b\n    padding: 8px 16px;\n    margin: 0 10px;\n    border-radius: 4px;\n    border: none;\n    cursor: pointer;\n\x7d\n.exit-cancel \x7b\n    background-color: \x23e0e0e0;\n\x7d\n.exit-confirm \x7b\n    background-color: \x23f44336;\n    color: white;\n\x7d\n</style>\n"

/-- Verbatim content of the local string exit_confirmation of ensure_exit_button in src/macos/html_handler.py; non-identifier characters are hex-escaped. -/
def HtmlHandler.exit_confirmation : String :=
  "\n<div class=\"exit-confirmation\" id=\"exit-confirmation\" style=\"display: none;\">\n    <div class=\"exit-confirmation-box\">\n        <h2>Confirm Exit</h2>\n        <p>Are you sure you want to exit the application?</p>\n        <div class=\"exit-confirmation-buttons\">\n            <button class=\"exit-cancel\" id=\"exit-cancel\">Cancel</button>\n            <button class=\"exit-confirm\" id=\"exit-confirm\">Exit</button>\n        </div>\n    </div>\n</div>\n"

/-- Verbatim content of the local string exit_script of ensure_exit_button in src/macos/html_handler.py; non-identifier characters are hex-escaped. -/
def HtmlHandler.exit_script : String :=
  "\n<script>\n// Exit button handler with confirmation\ndocument.addEventListener(\x27DOMContentLoaded\x27, function() \x7b\n    // Add exit confirmation if not present\n    if (!document.getElementById(\x27exit-confirmation\x27)) \x7b\n        const exitConfirmationHTML = \x60\n            <div class=\"exit-confirmation\" id=\"exit-confirmation\" style=\"display: none;\">\n                <div class=\"exit-confirmation-box\">\n                    <h2>Confirm Exit</h2>\n                    <p>Are you sure you want to exit the application?</p>\n                    <div class=\"exit-confirmation-buttons\">\n                        <button class=\"exit-cancel\" id=\"exit-cancel\">Cancel</button>\n                        <button class=\"exit-confirm\" id=\"exit-confirm\">Exit</button>\n                    </div>\n                </div>\n            </div>\n        \x60;\n        document.body.insertAdjacentHTML(\x27beforeend\x27, exitConfirmationHTML);\n    \x7d\n\n    // Ensure exit button exists\n    if (!document.getElementById(\x27exit-app-button\x27)) \x7b\n        var exitButton = document.createElement(\x27button\x27);\n        exitButton.id = \x27exit-app-button\x27;\n        exitButton.innerHTML = \x27Exit App\x27;\n        exitButton.style.position = \x27fixed\x27;\n        exitButton.style.bottom = \x2720px\x27;\n        exitButton.style.right = \x2720px\x27;\n        exitButton.style.backgroundColor = \x27\x23f44336\x27;\n        exitButton.style.color = \x27white\x27;\n        exitButton.style.padding = \x2710px 20px\x27;\n        exitButton.style.borderRadius = \x275px\x27;\n        exitButton.style.border = \x27none\x27;\n        exitButton.style.cursor = \x27pointer\x27;\n        exitButton.style.zIndex = \x279999\x27;\n        document.body.appendChild(exitButton);\n    \x7d\n    \n    // Handle exit button click\n    document.getElementById(\x27exit-app-button\x27).addEventListener(\x27click\x27, function() \x7b\n        document.getElementById(\x27exit-confirmation\x27).style.display = \x27flex\x27;\n    \x7d);\n    \n    // Cancel exit\n    document.getElementById(\x27exit-cancel\x27).addEventListener(\x27click\x27, function() \x7b\n        document.getElementById(\x27exit-confirmation\x27).style.display = \x27none\x27;\n    \x7d);\n    \n    // Confirm exit\n    document.getElementById(\x27exit-confirm\x27).addEventListener(\x27click\x27, function() \x7b\n        document.getElementById(\x27exit-confirmation\x27).style.display = \x27none\x27;\n        \n        // Show loading indicator\n        const loadingHTML = \x60\n            <div style=\"position: fixed; top: 0; left: 0; width: 100%; height: 100%; \n                      background-color: rgba(255,255,255,0.9); z-index: 10000;\n                      display: flex; flex-direction: column; \n                      justify-content: center; align-items: center;\">\n                <h1>Shutting down...</h1>\n                <p>Please wait while the application closes.</p>\n            </div>\n        \x60;\n        document.body.insertAdjacentHTML(\x27beforeend\x27, loadingHTML);\n        \n        // Send exit request to server\n        fetch(\x27/exit\x27, \x7b \n            method: \x27POST\x27,\n            headers: \x7b\n                \x27Content-Type\x27: \x27application/json\x27,\n                \x27X-Exit-Requested-By\x27: \x27user-interface\x27\n            \x7d\n        \x7d)\n        .then(response => \x7b\n            if (!response.ok) \x7b\n                throw new Error(\x27Server responded with an error\x27);\n            \x7d\n            document.body.innerHTML = \x27<div style=\"position: absolute; top: 50%; left: 50%; transform: translate(-50%, -50%); text-align: center;\"><h1>Server shutdown. You can close this window.</h1></div>\x27;\n        \x7d)\n        .catch(err => \x7b\n            alert(\x27Error shutting down: \x27 + err);\n        \x7d);\n    \x7d);\n\x7d);\n\n// Set up the tab close/refresh detector\nwindow.addEventListener(\x27beforeunload\x27, function(e) \x7b\n    // Add server shutdown call when tab is closed or refreshed\n    const exitBeacon = new Image();\n    exitBeacon.src = \x27/exit?auto_close=true&t=\x27 + new Date().getTime();\n    \n    // Use sendBeacon for more reliable shutdown when page unloads\n    navigator.sendBeacon(\x27/exit\x27, JSON.stringify(\x7b\n        reason: \x27tab_closed\x27,\n        timestamp: new Date().toISOString()\n    \x7d));\n    \n    // No need to show a confirmation dialog\n    return undefined;\n\x7d);\n\n// Function to detect iOS version\nfunction getIOSVersion() \x7b\n    if (/iPad|iPhone|iPod/.test(navigator.userAgent) && !window.MSStream) \x7b\n        const match = navigator.userAgent.match(/OS (\\\\d+)_(\\\\d+)_?(\\\\d+)?/);\n        return match ? \x7b\n            major: parseInt(match[1], 10),\n            minor: parseInt(match[2], 10),\n            patch: parseInt(match[3] || 0, 10)\n        \x7d : null;\n    \x7d\n    return null;\n\x7d\n</script>\n"

/-- Verbatim content of the local string exit_script of modify_html_content in src/macos/macos_app.py (lines 26-152); non-identifier characters are hex-escaped. -/
def MacosApp.exit_script : String :=
  "\n    <style>\n    \x23exit-button \x7b\n        position: fixed;\n        bottom: 20px;\n        right: 20px;\n        background-color: \x23f44336;\n        color: white;\n        padding: 10px 20px;\n        border-radius: 5px;\n        border: none;\n        cursor: pointer;\n        font-size: 16px;\n        z-index: 9999;\n    \x7d\n    \x23exit-button:hover \x7b\n        background-color: \x23d32f2f;\n    \x7d\n    .error-overlay \x7b\n        position: fixed;\n        top: 0;\n        left: 0;\n        width: 100%;\n        height: 100%;\n        background-color: rgba(0, 0, 0, 0.8);\n        color: white;\n        display: flex;\n        flex-direction: column;\n        justify-content: center;\n        align-items: center;\n        font-family: Arial, sans-serif;\n        z-index: 10000;\n        padding: 20px;\n        text-align: center;\n    \x7d\n    .error-content \x7b\n        background-color: \x23d32f2f;\n        padding: 20px;\n        border-radius: 8px;\n        max-width: 80%;\n        max-height: 80%;\n        overflow-y: auto;\n    \x7d\n    .error-title \x7b\n        font-size: 24px;\n        margin-bottom: 20px;\n    \x7d\n    .error-message \x7b\n        font-size: 16px;\n        margin-bottom: 20px;\n        white-space: pre-wrap;\n        text-align: left;\n    \x7d\n    .error-close \x7b\n        background-color: white;\n        color: black;\n        border: none;\n        padding: 10px 20px;\n        border-radius: 5px;\n        cursor: pointer;\n        font-size: 16px;\n        margin-top: 20px;\n    \x7d\n    </style>\n    \n    <button id=\"exit-button\" onclick=\"exitServer()\">Exit Server</button>\n    \n    <script>\n    // Error handling function\n    function showError(title, message) \x7b\n        const overlay = document.createElement(\x27div\x27);\n        overlay.className = \x27error-overlay\x27;\n        \n        overlay.innerHTML = \x60\n            <div class=\"error-content\">\n                <div class=\"error-title\">$\x7btitle\x7d</div>\n                <div class=\"error-message\">$\x7bmessage\x7d</div>\n                <button class=\"error-close\" onclick=\"this.parentNode.parentNode.remove()\">Close</button>\n            </div>\n        \x60;\n        \n        document.body.appendChild(overlay);\n    \x7d\n    \n    function exitServer() \x7b\n        if (confirm(\x27Are you sure you want to exit the server?\x27)) \x7b\n            fetch(\x27/exit\x27, \x7b method: \x27POST\x27 \x7d)\n                .then(() => \x7b\n                    document.body.innerHTML = \x60\n                        <div style=\"\n                            position: fixed;\n                            top: 0;\n                            left: 0;\n                            width: 100%;\n                            height: 100%;\n                            display: flex;\n                            justify-content: center;\n                            align-items: center;\n                            font-family: Arial, sans-serif;\n                            text-align: center;\n                        \">\n                            <h1>Server shutdown. You can close this window.</h1>\n                        </div>\n                    \x60;\n                \x7d)\n                .catch(err => \x7b\n                    console.error(\x27Error shutting down server:\x27, err);\n                    alert(\x27Error shutting down server. Please try again.\x27);\n                \x7d);\n        \x7d\n    \x7d\n    \n    // Check for startup errors\n    window.addEventListener(\x27load\x27, function() \x7b\n        fetch(\x27/check-status\x27)\n            .then(response => response.json())\n            .then(data => \x7b\n                if (data.error) \x7b\n                    showError(\x27Application Error\x27, data.error);\n                \x7d\n            \x7d)\n            .catch(err => \x7b\n                console.error(\x27Error checking application status:\x27, err);\n            \x7d);\n    \x7d);\n    </script>\n    "

/-- Verbatim content of the local string button_html of inject_exit_button in src/windows/make_windows_exe.py (line 153); non-identifier characters are hex-escaped. -/
def WinExe.button_html : String :=
  "\n<button onclick=\"fetch(\x27/exit\x27, \x7bmethod: \x27POST\x27\x7d).then(() => window.location.href=\x27/shutdown-msg\x27)\" style=\"position: fixed; bottom: 10px; right: 10px; z-index: 9999;\">Exit Server</button>\n"


/-- Outcome of the TCP connect attempt made by the port probes: connect_ex
returned an error code (0 means the connect succeeded), or the attempt
raised an exception (socket creation failure and the like). -/
inductive ProbeOutcome
  | result (code : Nat)
  | raises
deriving DecidableEq

/-- Function is_port_in_use of src/macos/server.py (lines 54-60): reports
whether connect_ex returned 0; any exception is caught, logged, and turned
into False.  The probe is a total function of the connect outcome: no
outcome propagates an error to the caller. -/
def Server.is_port_in_use : ProbeOutcome → Bool
  | .result code => code == 0
  | .raises => false

/-- Function is_port_in_use of
src/macos/MyPointCards.app/Contents/Frameworks/dock_handler.py (lines
17-24): identical logic to the server.py probe. -/
def DockHandler.is_port_in_use : ProbeOutcome → Bool
  | .result code => code == 0
  | .raises => false

/-- Way the Python process was ended: sys.exit raises SystemExit and the
interpreter unwinds, honouring the normal cleanup machinery; os._exit ends
the process immediately, bypassing all cleanup. -/
inductive ExitKind
  | sysExit (code : Nat)
  | osExit (code : Nat)
deriving DecidableEq

/-- Mutable flags and observable effects of one ServerHandler process
(src/macos/server.py).  tasksScheduled counts started delayed_shutdown
threads; desktopNotes counts the marker text files their bodies write to
the Desktop; browserOpens counts open_browser calls made from handlers. -/
structure Server.State where
  shutdown_in_progress : Bool
  tasksScheduled : Nat
  pidFileExists : Bool
  desktopNotes : Nat
  browserOpens : Nat
  terminated : Bool
  exitKind : Option ExitKind
deriving DecidableEq

/-- HTTP answer produced by one handler invocation of the macOS control
server: an explicit 200 or 405 response, or delegation to the inherited
SimpleHTTPRequestHandler static-file behaviour (super().do_GET(), line
360 of src/macos/server.py). -/
inductive Server.Response
  | ok (contentType : String) (body : List Char)
  | methodNotAllowed (body : List Char)
  | fallback (path : List Char)
deriving DecidableEq

/-- Status code sent by send_response in the explicit branches; the
static-file fallback chooses its own code (200 or 404) from the file
system, which the model leaves abstract. -/
def Server.Response.statusCode : Server.Response → Option Nat
  | .ok _ _ => some 200
  | .methodNotAllowed _ => some 405
  | .fallback _ => none

/-- Body of the /status response: the Python str of the status dict, whose
time field is the current time.ctime() value, passed in as now. -/
def Server.statusBody (now : List Char) : List Char :=
  "\x7b\x27server\x27: \x27running\x27, \x27time\x27: \x27".data
    ++ now ++ "\x27\x7d".data

/-- Method do_GET of ServerHandler.RequestHandler (src/macos/server.py
lines 292-360), as a state transformer, with the source's path dispatch in
source order.  The branch for paths starting with /exit that carry the
auto_close=true marker answers 200 and starts a delayed_shutdown thread
without consulting or setting shutdown_in_progress; every unmatched path
falls through to the inherited static-file handler. -/
def Server.do_GET (html_content now path : List Char) (st : Server.State) :
    Server.State × Server.Response :=
  if path = "/".data then
    (st, .ok "text/html" (Server.get_modified_html html_content))
  else if path = "/open".data then
    ({ st with browserOpens := st.browserOpens + 1 },
     .ok "text/plain" "Browser open request received".data)
  else if path = "/ping".data then
    (st, .ok "text/plain" "pong".data)
  else if path = "/status".data then
    (st, .ok "text/plain" (Server.statusBody now))
  else if "/exit".data.isPrefixOf path && strContains "auto_close=true".data path then
    ({ st with tasksScheduled := st.tasksScheduled + 1 },
     .ok "text/plain" "Shutting down from tab close".data)
  else
    (st, .fallback path)

/-- Method do_POST of ServerHandler.RequestHandler (src/macos/server.py
lines 369-416): any path equal to or starting with /exit is treated as an
exit request, guarded by the shutdown_in_progress flag; the first accepted
request sets the flag and starts a delayed_shutdown thread; later ones are
acknowledged without effects; every other path is answered 405. -/
def Server.do_POST (path : List Char) (st : Server.State) :
    Server.State × Server.Response :=
  if path = "/exit".data ∨ "/exit".data.isPrefixOf path then
    if st.shutdown_in_progress then
      (st, .ok "text/plain" "Shutdown already in progress...".data)
    else
      ({ st with shutdown_in_progress := true, tasksScheduled := st.tasksScheduled + 1 },
       .ok "text/plain" "Shutting down server...".data)
  else
    (st, .methodNotAllowed "Method not allowed".data)

/-- Method cleanup of ServerHandler (src/macos/server.py lines 258-265):
removes the PID file (the Instance Marker) when it exists. -/
def Server.cleanup (st : Server.State) : Server.State :=
  { st with pidFileExists := false }

/-- Python sys.exit(code): raises SystemExit.  In the main thread the
interpreter unwinds and the process ends (recorded with kind sysExit —
normal cleanup honoured, never a forced bypass); in a worker thread the
threading machinery silently swallows SystemExit (documented behaviour of
Thread bootstrap), so only that thread ends and the process state is
unchanged. -/
def Server.sys_exit (inMainThread : Bool) (code : Nat) (st : Server.State) :
    Server.State :=
  if inMainThread then
    { st with terminated := true, exitKind := some (.sysExit code) }
  else
    st

/-- Method signal_handler of ServerHandler (src/macos/server.py lines
267-271): first cleanup (removing the Instance Marker), then sys.exit(0).
Handlers installed with signal.signal run in the main thread, where
sys.exit ends the process; the delayed_shutdown bodies call this method
directly from their worker threads, where it does not. -/
def Server.signal_handler (inMainThread : Bool) (st : Server.State) :
    Server.State :=
  Server.sys_exit inMainThread 0 (Server.cleanup st)

/-- Sleep, in milliseconds, at the start of both delayed_shutdown bodies
(time.sleep(0.5), src/macos/server.py lines 346 and 394). -/
def Server.DELAYED_SHUTDOWN_SLEEP_MS : Nat := 500

/-- Body of the delayed_shutdown thread scheduled by do_POST /exit
(src/macos/server.py lines 393-403) and, identically up to the name of the
note file, by the auto_close branch of do_GET (lines 345-358): sleep 0.5 s,
best-effort write of a marker text file to the Desktop, then the outer
signal_handler — invoked from this worker thread, not the main thread, so
its sys.exit(0) raises a SystemExit that the threading machinery swallows
and the process is not ended. -/
def Server.delayed_shutdown (st : Server.State) : Server.State :=
  Server.signal_handler false { st with desktopNotes := st.desktopNotes + 1 }

/-- HTTP method of a request to the control server. -/
inductive Method
  | get
  | post
deriving DecidableEq

/-- One request: its method and its raw path including any query string. -/
structure Request where
  method : Method
  path : List Char
deriving DecidableEq

/-- Dispatch of one request to do_GET or do_POST. -/
def Server.handle (html_content now : List Char) (req : Request)
    (st : Server.State) : Server.State × Server.Response :=
  match req.method with
  | .get => Server.do_GET html_content now req.path st
  | .post => Server.do_POST req.path st

/-- Sequential processing of a request list, as done by the synchronous
socketserver.TCPServer loop of start_server (one request at a time,
src/macos/server.py line 445). -/
def Server.handleAll (html_content now : List Char) :
    List Request → Server.State → Server.State × List Server.Response
  | [], st => (st, [])
  | r :: rs, st =>
    let p := Server.handle html_content now r st
    let q := Server.handleAll html_content now rs p.1
    (q.1, p.2 :: q.2)

/-- Server state right after start_server bound the socket and wrote the
PID file (src/macos/server.py lines 435-445): flag clear, no tasks yet,
Instance Marker present. -/
def Server.initialState : Server.State :=
  { shutdown_in_progress := false, tasksScheduled := 0, pidFileExists := true,
    desktopNotes := 0, browserOpens := 0, terminated := false, exitKind := none }

/-- Observable state of the server script generated by src/macos/macos_app.py:
number of deferred shutdown threads started. -/
structure MacosApp.State where
  tasksScheduled : Nat
deriving DecidableEq

/-- Answer of the generated macos_app handler: 200 with a body, or a bare
405 with no body. -/
inductive MacosApp.Response
  | ok (body : List Char)
  | methodNotAllowed
deriving DecidableEq

/-- Method do_POST of CustomHTTPRequestHandler in the script generated by
src/macos/macos_app.py (lines 331-341): only the exact path /exit is an
exit request (200, deferred shutdown thread); every other path is answered
405 Method Not Allowed. -/
def MacosApp.do_POST (path : List Char) (st : MacosApp.State) :
    MacosApp.State × MacosApp.Response :=
  if path = "/exit".data then
    ({ tasksScheduled := st.tasksScheduled + 1 }, .ok "Server shutting down...".data)
  else
    (st, .methodNotAllowed)

/-- Function ensure_exit_button of src/macos/html_handler.py (lines
190-385): conditionally inserts styles, confirmation dialog and button
(each insertion guarded by a marker check in source order), then inserts
the exit script before the closing body tag whenever one is present. -/
def HtmlHandler.ensure_exit_button (html_content : List Char) : List Char :=
  let h1 :=
    if strContains "<head>".data html_content
        && strContains "</head>".data html_content
        && !(strContains "exit-confirmation".data html_content) then
      strReplace "</head>".data (HtmlHandler.exit_styles.data ++ "</head>".data)
        html_content
    else html_content
  let h2 :=
    if strContains bodyCloseTag h1 && !(strContains "exit-confirmation".data h1) then
      strReplace bodyCloseTag (HtmlHandler.exit_confirmation.data ++ bodyCloseTag) h1
    else h1
  let h3 :=
    if !(strContains "exit-app-button".data h2) && strContains bodyCloseTag h2 then
      strReplace bodyCloseTag (HtmlHandler.exit_button.data ++ bodyCloseTag) h2
    else h2
  if strContains bodyCloseTag h3 then
    strReplace bodyCloseTag (HtmlHandler.exit_script.data ++ bodyCloseTag) h3
  else h3

/-- Function modify_html_content of src/macos/macos_app.py (lines 22-160):
inserts its exit script before the closing body tag, or appends it at the
very end when the document has no closing body tag. -/
def MacosApp.modify_html_content (html_content : List Char) : List Char :=
  if strContains bodyCloseTag html_content then
    strReplace bodyCloseTag (MacosApp.exit_script.data ++ bodyCloseTag) html_content
  else html_content ++ MacosApp.exit_script.data

/-- Function inject_exit_button of src/windows/make_windows_exe.py (lines
152-156): inserts its button before the closing body tag, or appends it at
the very end when the document has no closing body tag. -/
def WinExe.inject_exit_button (html : List Char) : List Char :=
  if strContains bodyCloseTag html then
    strReplace bodyCloseTag (WinExe.button_html.data ++ bodyCloseTag) html
  else html ++ WinExe.button_html.data

/-- Mechanisms the browser launchers can invoke. -/
inductive BrowserMech
  | subprocessOpen
  | osSystemOpen
  | webbrowserOpen
deriving DecidableEq

/-- Function open_browser of src/macos/server.py (lines 79-98): always
tries subprocess.run of the open command (bounded by a 2 s timeout, no
readiness gate); when that raises, logs the error and falls back to
os.system; when the fallback also raises, logs that all methods failed.
The Boolean inputs say which mechanisms raise in the modelled environment;
the result is the ordered list of attempted mechanisms and whether total
failure was logged. -/
def Server.open_browser (subprocessRaises osSystemRaises : Bool) :
    List BrowserMech × Bool :=
  if !subprocessRaises then ([.subprocessOpen], false)
  else if !osSystemRaises then ([.subprocessOpen, .osSystemOpen], false)
  else ([.subprocessOpen, .osSystemOpen], true)

/-- Result of one run of the windows launcher's open_browser. -/
structure WinExe.BrowserRun where
  attemptedOpen : Bool
  loggedTimeout : Bool
  loggedOpenError : Bool
  triedAlternate : Bool
deriving DecidableEq

/-- Function open_browser of the generated windows server script
(src/windows/make_windows_exe.py lines 69-81): waits up to 10 s on the
server_ready event; when ready, sleeps 0.5 s and tries webbrowser.open,
printing any exception; when the wait times out, prints a timeout message
and never attempts the open.  No alternate mechanism exists in either
branch. -/
def WinExe.open_browser (readyWithinTimeout webbrowserRaises : Bool) :
    WinExe.BrowserRun :=
  if readyWithinTimeout then
    { attemptedOpen := true, loggedTimeout := false,
      loggedOpenError := webbrowserRaises, triedAlternate := false }
  else
    { attemptedOpen := false, loggedTimeout := true,
      loggedOpenError := false, triedAlternate := false }

/-- Outcome of a launcher's startup decision. -/
structure StartDecision where
  attemptedBind : Bool
  openedBrowserToExisting : Bool
  exited : Option ExitKind
  wrotePidFile : Bool
deriving DecidableEq

/-- Port-probe branch of ServerHandler.start_server (src/macos/server.py
lines 418-445): when is_port_in_use() reports the port taken, open the
browser against the existing listener and sys.exit(0) without binding and
without writing the PID file; otherwise write the PID file and bind. -/
def Server.start_server (portInUse : Bool) : StartDecision :=
  if portInUse then
    { attemptedBind := false, openedBrowserToExisting := true,
      exited := some (.sysExit 0), wrotePidFile := false }
  else
    { attemptedBind := true, openedBrowserToExisting := false,
      exited := none, wrotePidFile := true }

/-- Startup port check of the generated windows server script
(src/windows/make_windows_exe.py lines 97-113): when connect_ex reports
the port taken and is_port_responsive confirms an HTTP answer, open the
browser to the existing server and os._exit(0); when the port is taken but
not responsive, fall through and attempt to bind anyway; when the port is
free, bind.  The generated script writes no PID file. -/
def WinExe.mainStart (portInUse responsive : Bool) : StartDecision :=
  if portInUse && responsive then
    { attemptedBind := false, openedBrowserToExisting := true,
      exited := some (.osExit 0), wrotePidFile := false }
  else
    { attemptedBind := true, openedBrowserToExisting := false,
      exited := none, wrotePidFile := false }

/-- Operations of the generated windows server during one session that
could interact with the server_ready event
(src/windows/make_windows_exe.py): server_bind is the only writer
(server_ready.set(), line 131); open_browser only waits on the event; the
request handlers and shutdown never name it, and Event.clear is never
called anywhere in the script. -/
inductive WinExe.ServerOp
  | server_bind
  | handleGetRoot
  | handleGetShutdownMsg
  | handleGetOther
  | handlePostExit
  | handlePostOther
  | openBrowserWait
  | shutdownCall
deriving DecidableEq

/-- Effect of each operation on the server_ready flag: only server_bind
sets it; no operation clears it. -/
def WinExe.stepReady (op : WinExe.ServerOp) (r : Bool) : Bool :=
  match op with
  | .server_bind => true
  | _ => r

/-- Value of the readiness flag after running a trace of operations from
the flag value r. -/
def WinExe.readyAfter (r : Bool) : List WinExe.ServerOp → Bool
  | [] => r
  | op :: t => WinExe.readyAfter (WinExe.stepReady op r) t

/-- Number of false-to-true transitions of the readiness flag along a
trace starting at flag value r. -/
def WinExe.readyFlips (r : Bool) : List WinExe.ServerOp → Nat
  | [] => 0
  | op :: t =>
    (if r = false ∧ WinExe.stepReady op r = true then 1 else 0)
      + WinExe.readyFlips (WinExe.stepReady op r) t

theorem stepReady_true (op : WinExe.ServerOp) : WinExe.stepReady op true = true := by
  cases op <;> rfl

theorem readyAfter_true (ops : List WinExe.ServerOp) :
    WinExe.readyAfter true ops = true := by
  induction ops with
  | nil => rfl
  | cons op t ih =>
    show WinExe.readyAfter (WinExe.stepReady op true) t = true
    rw [stepReady_true]
    exact ih

theorem readyFlips_true (ops : List WinExe.ServerOp) :
    WinExe.readyFlips true ops = 0 := by
  induction ops with
  | nil => rfl
  | cons op t ih =>
    show (if true = false ∧ WinExe.stepReady op true = true then 1 else 0)
        + WinExe.readyFlips (WinExe.stepReady op true) t = 0
    rw [stepReady_true]
    simp [ih]

theorem readyAfter_false_iff (ops : List WinExe.ServerOp) :
    WinExe.readyAfter false ops = true ↔ WinExe.ServerOp.server_bind ∈ ops := by
  induction ops with
  | nil => simp [WinExe.readyAfter]
  | cons op t ih =>
    cases op with
    | server_bind =>
      show WinExe.readyAfter (WinExe.stepReady .server_bind false) t = true ↔ _
      simp [WinExe.stepReady, readyAfter_true]
    | handleGetRoot => simpa [WinExe.readyAfter, WinExe.stepReady] using ih
    | handleGetShutdownMsg => simpa [WinExe.readyAfter, WinExe.stepReady] using ih
    | handleGetOther => simpa [WinExe.readyAfter, WinExe.stepReady] using ih
    | handlePostExit => simpa [WinExe.readyAfter, WinExe.stepReady] using ih
    | handlePostOther => simpa [WinExe.readyAfter, WinExe.stepReady] using ih
    | openBrowserWait => simpa [WinExe.readyAfter, WinExe.stepReady] using ih
    | shutdownCall => simpa [WinExe.readyAfter, WinExe.stepReady] using ih

theorem readyFlips_false (ops : List WinExe.ServerOp) :
    WinExe.readyFlips false ops
      = if WinExe.ServerOp.server_bind ∈ ops then 1 else 0 := by
  induction ops with
  | nil => simp [WinExe.readyFlips]
  | cons op t ih =>
    cases op with
    | server_bind =>
      show (if false = false ∧ WinExe.stepReady .server_bind false = true then 1 else 0)
          + WinExe.readyFlips (WinExe.stepReady .server_bind false) t = _
      simp [WinExe.stepReady, readyFlips_true]
    | handleGetRoot => simpa [WinExe.readyFlips, WinExe.stepReady] using ih
    | handleGetShutdownMsg => simpa [WinExe.readyFlips, WinExe.stepReady] using ih
    | handleGetOther => simpa [WinExe.readyFlips, WinExe.stepReady] using ih
    | handlePostExit => simpa [WinExe.readyFlips, WinExe.stepReady] using ih
    | handlePostOther => simpa [WinExe.readyFlips, WinExe.stepReady] using ih
    | openBrowserWait => simpa [WinExe.readyFlips, WinExe.stepReady] using ih
    | shutdownCall => simpa [WinExe.readyFlips, WinExe.stepReady] using ih

/-- C8: for every trace of server operations, the readiness flag of the
generated windows server transitions from false to true exactly once —
once when the trace contains the socket-bind operation (the only writer,
which sets it), never otherwise — and once true it stays true under every
operation, so it never reverts for the remainder of the session. -/
theorem c8_readiness_monotone (ops : List WinExe.ServerOp) :
    WinExe.readyAfter true ops = true
    ∧ (WinExe.readyAfter false ops = true ↔ WinExe.ServerOp.server_bind ∈ ops)
    ∧ WinExe.readyFlips false ops
        = (if WinExe.ServerOp.server_bind ∈ ops then 1 else 0)
    ∧ WinExe.readyFlips true ops = 0 :=
  ⟨readyAfter_true ops, readyAfter_false_iff ops, readyFlips_false ops,
    readyFlips_true ops⟩

/-- C6: the Instance Guard probe never raises to its caller: it is a total
function of the connect outcome; a successful connect (connect_ex code 0)
yields True, and every other outcome — a nonzero connect_ex code or an
exception raised during the attempt — yields False.  The dock_handler copy
of the probe computes the identical function. -/
theorem c6_probe_never_raises (o : ProbeOutcome) :
    (Server.is_port_in_use o = true ↔ o = ProbeOutcome.result 0)
    ∧ DockHandler.is_port_in_use o = Server.is_port_in_use o := by
  refine ⟨?_, by cases o <;> rfl⟩
  cases o with
  | result code => simp [Server.is_port_in_use]
  | raises => simp [Server.is_port_in_use]

/-- C4: evaluation of the code at the failing input.  The deferred task
scheduled after a 200-acknowledged /exit does remove the Instance Marker
(after its 500 ms sleep, within the 1 s window), but it ends the process
neither forcibly nor at all: it calls sys.exit(0) from its worker thread,
where the raised SystemExit is silently swallowed by the threading
machinery, so apart from the removed marker and the Desktop note the state
is unchanged and the server keeps running.  The same signal handler run in
the main thread — as for a real SIGINT or SIGTERM — does end the process,
by normal SystemExit unwinding, which is still not the forced
cleanup-bypassing termination the claim describes. -/
theorem c4_deferred_task_no_termination (st : Server.State) :
    Server.delayed_shutdown st
      = { st with desktopNotes := st.desktopNotes + 1, pidFileExists := false }
    ∧ (Server.delayed_shutdown st).pidFileExists = false
    ∧ (Server.delayed_shutdown st).terminated = st.terminated
    ∧ (Server.delayed_shutdown st).exitKind = st.exitKind
    ∧ (Server.signal_handler true st).terminated = true
    ∧ (Server.signal_handler true st).exitKind = some (ExitKind.sysExit 0)
    ∧ Server.DELAYED_SHUTDOWN_SLEEP_MS ≤ 1000 :=
  ⟨rfl, rfl, rfl, rfl, rfl, rfl, by decide⟩

/-- C5 amended: the macOS launcher treats an occupied port as a recoverable
bind conflict: it opens the browser against the existing listener and
exits cleanly with status 0 (sys.exit(0)) without attempting to bind and
without writing the marker file.  The windows launcher does the same (via
os._exit(0)) only when the occupant also answers HTTP; when the port is
occupied but not responsive it proceeds to attempt the bind, and when the
port is free both launchers bind. -/
theorem c5_startup_fallback (responsive : Bool) :
    Server.start_server true
      = { attemptedBind := false, openedBrowserToExisting := true,
          exited := some (.sysExit 0), wrotePidFile := false }
    ∧ WinExe.mainStart true true
      = { attemptedBind := false, openedBrowserToExisting := true,
          exited := some (.osExit 0), wrotePidFile := false }
    ∧ (WinExe.mainStart true false).attemptedBind = true
    ∧ (WinExe.mainStart true false).exited = none
    ∧ Server.start_server false
      = { attemptedBind := true, openedBrowserToExisting := false,
          exited := none, wrotePidFile := true }
    ∧ (WinExe.mainStart false responsive).attemptedBind = true := by
  cases responsive <;> decide

/-- C5 counterexample: when the startup probe of the generated windows
launcher finds the port occupied but the occupant does not answer HTTP,
the launcher does not exit cleanly without binding: it opens no browser,
does not exit, and proceeds to attempt the bind. -/
theorem c5_counterexample :
    (WinExe.mainStart true false).attemptedBind = true
    ∧ (WinExe.mainStart true false).exited = none
    ∧ (WinExe.mainStart true false).openedBrowserToExisting = false := by
  decide

/-- C7 amended: the macOS open_browser always attempts its primary
mechanism (subprocess open, with no readiness gate at all, so a missing
readiness confirmation never prevents the attempt) and, when the primary
raises, falls back to the os.system alternate before giving up with a log
entry.  The generated windows launcher however, when readiness is not
confirmed within its 10 s timeout, only logs the timeout and never
attempts the open, and it has no alternate mechanism when webbrowser.open
fails. -/
theorem c7_browser_launcher (sr os ready wr : Bool) :
    (Server.open_browser sr os).1.head? = some BrowserMech.subprocessOpen
    ∧ (Server.open_browser true os).1 = [BrowserMech.subprocessOpen, BrowserMech.osSystemOpen]
    ∧ (WinExe.open_browser false wr).attemptedOpen = false
    ∧ (WinExe.open_browser false wr).loggedTimeout = true
    ∧ (WinExe.open_browser ready wr).triedAlternate = false := by
  cases sr <;> cases os <;> cases ready <;> cases wr <;> decide

/-- C7 counterexample: the generated windows launcher violates both halves
of the claim: on readiness timeout it logs and gives up without attempting
the browser open, and when the open mechanism fails it tries no alternate
mechanism. -/
theorem c7_counterexample :
    (WinExe.open_browser false false).attemptedOpen = false
    ∧ (WinExe.open_browser false false).loggedTimeout = true
    ∧ (WinExe.open_browser true true).triedAlternate = false := by
  decide

/-- C10 amended: in the macOS control server a POST whose path does not
start with /exit is answered 405 Method Not Allowed with no state change:
it never reaches the static-file fallback (POST has none) and never
touches the Shutdown Coordinator.  The guard, however, is a startswith
test, so any path merely starting with /exit (such as /exit2) is treated
as an exit request, not answered 405.  In the macos_app variant the guard
is exact equality with /exit, and every other POST path gets 405. -/
theorem c10_post_other_405 (p q : List Char) (st : Server.State)
    (st2 st3 : MacosApp.State)
    (h : "/exit".data.isPrefixOf p = false)
    (hq : q ≠ "/exit".data) :
    Server.do_POST p st = (st, .methodNotAllowed "Method not allowed".data)
    ∧ MacosApp.do_POST q st2 = (st2, .methodNotAllowed)
    ∧ MacosApp.do_POST "/exit".data st3
        = ({ tasksScheduled := st3.tasksScheduled + 1 },
           .ok "Server shutting down...".data) := by
  have hne : p ≠ "/exit".data := by
    intro e
    subst e
    have hself := isPrefixOf_self_append "/exit".data []
    rw [List.append_nil] at hself
    rw [hself] at h
    simp at h
  refine ⟨?_, ?_, ?_⟩
  · unfold Server.do_POST
    rw [if_neg]
    rintro (e | e)
    · exact hne e
    · rw [h] at e
      simp at e
  · unfold MacosApp.do_POST
    rw [if_neg hq]
  · unfold MacosApp.do_POST
    rw [if_pos rfl]

/-- C10 witness: the hypotheses of the amended theorem hold at the
concrete paths /ping (for the macOS control server) and /exit2 (for the
macos_app variant, an /exit-prefixed but not exact path), and the theorem
applies there. -/
theorem c10_witness :
    "/exit".data.isPrefixOf "/ping".data = false
    ∧ "/exit2".data ≠ "/exit".data
    ∧ (Server.do_POST "/ping".data Server.initialState
        = (Server.initialState, .methodNotAllowed "Method not allowed".data)
      ∧ MacosApp.do_POST "/exit2".data ⟨0⟩ = (⟨0⟩, .methodNotAllowed)
      ∧ MacosApp.do_POST "/exit".data ⟨0⟩
          = (⟨1⟩, .ok "Server shutting down...".data)) :=
  ⟨by decide, by decide,
   c10_post_other_405 "/ping".data "/exit2".data Server.initialState ⟨0⟩ ⟨0⟩
     (by decide) (by decide)⟩

/-- C10 counterexample: a POST to /exit2 — a path other than /exit — is
not answered 405 by the macOS control server: the startswith guard treats
it as an exit request, answers 200 with the shutdown body, and schedules a
deferred-termination task. -/
theorem c10_counterexample :
    (Server.do_POST "/exit2".data Server.initialState).2
      = Server.Response.ok "text/plain" "Shutting down server...".data
    ∧ (Server.do_POST "/exit2".data Server.initialState).1.tasksScheduled = 1
    ∧ (Server.do_POST "/exit2".data Server.initialState).2.statusCode ≠ some 405 := by
  decide

/-- C2 amended: once shutdown_in_progress is set, every later POST /exit
(any /exit-prefixed path, from the exit button or the sendBeacon tab-close
beacon) is acknowledged with 200 and leaves the state untouched, and two
serialized POST /exit requests from a clean state schedule exactly one
deferred-termination task while both receive 200.  A GET /exit request
carrying the auto_close=true marker, however, always schedules one more
deferred-termination task — it neither consults nor sets the flag — even
when a shutdown is already in progress (it is answered 200 as well). -/
theorem c2_shutdown_idempotence (st stC : Server.State) (p html now : List Char)
    (h : st.shutdown_in_progress = true)
    (hp : p = "/exit".data ∨ "/exit".data.isPrefixOf p = true)
    (hc : stC.shutdown_in_progress = false) :
    Server.do_POST p st
      = (st, .ok "text/plain" "Shutdown already in progress...".data)
    ∧ (Server.handleAll html now
        [⟨Method.post, "/exit".data⟩, ⟨Method.post, "/exit".data⟩] stC).1.tasksScheduled
        = stC.tasksScheduled + 1
    ∧ ((Server.handleAll html now
        [⟨Method.post, "/exit".data⟩, ⟨Method.post, "/exit".data⟩] stC).2.map
          Server.Response.statusCode) = [some 200, some 200]
    ∧ (Server.do_GET html now "/exit?auto_close=true&t=1".data st).1.tasksScheduled
        = st.tasksScheduled + 1
    ∧ (Server.do_GET html now "/exit?auto_close=true&t=1".data st).2.statusCode
        = some 200 := by
  refine ⟨?_, ?_, ?_, ?_, ?_⟩
  · unfold Server.do_POST
    rw [if_pos hp, if_pos h]
  · simp [Server.handleAll, Server.handle, Server.do_POST, hc]
  · simp [Server.handleAll, Server.handle, Server.do_POST, hc,
      Server.Response.statusCode]
  · unfold Server.do_GET
    rw [if_neg (by decide), if_neg (by decide), if_neg (by decide),
      if_neg (by decide), if_pos (by decide)]
  · unfold Server.do_GET
    rw [if_neg (by decide), if_neg (by decide), if_neg (by decide),
      if_neg (by decide), if_pos (by decide)]
    rfl

/-- C2 witness: the hypotheses of the amended theorem hold at a concrete
in-progress state and a concrete clean state, and the theorem applies
there. -/
theorem c2_witness :
    ({ Server.initialState with shutdown_in_progress := true }
        : Server.State).shutdown_in_progress = true
    ∧ ("/exit".data = "/exit".data ∨ "/exit".data.isPrefixOf "/exit".data = true)
    ∧ Server.initialState.shutdown_in_progress = false
    ∧ (Server.handleAll [] []
        [⟨Method.post, "/exit".data⟩, ⟨Method.post, "/exit".data⟩]
        Server.initialState).1.tasksScheduled
        = Server.initialState.tasksScheduled + 1 :=
  ⟨by decide, Or.inl rfl, by decide,
   (c2_shutdown_idempotence { Server.initialState with shutdown_in_progress := true }
      Server.initialState "/exit".data [] [] (by decide) (Or.inl rfl)
      (by decide)).2.1⟩

/-- C2 counterexample: a first POST /exit is accepted (200, one task);
a following tab-close GET beacon /exit with the auto_close marker is also
answered 200 but schedules a second deferred-termination task, so the two
/exit requests together schedule two tasks, not one, and the second
request is not side-effect free. -/
theorem c2_counterexample :
    Server.handleAll [] []
        [⟨Method.post, "/exit".data⟩, ⟨Method.get, "/exit?auto_close=true&t=1".data⟩]
        Server.initialState
      = ({ shutdown_in_progress := true, tasksScheduled := 2, pidFileExists := true,
           desktopNotes := 0, browserOpens := 0, terminated := false, exitKind := none },
         [.ok "text/plain" "Shutting down server...".data,
          .ok "text/plain" "Shutting down from tab close".data])
    ∧ (Server.handleAll [] []
        [⟨Method.post, "/exit".data⟩, ⟨Method.get, "/exit?auto_close=true&t=1".data⟩]
        Server.initialState).1.tasksScheduled ≠ 1 := by
  decide

/-- C3 amended: a POST to any /exit-prefixed path p — including the plain
/exit sent by the exit button and by the sendBeacon tab-close beacon — is
answered 200 with a text/plain body before any process termination occurs
(the handler itself never terminates the process; termination is deferred
to the scheduled task), and routes into the shutdown logic; a GET to an
/exit-prefixed path q is acknowledged 200 text/plain and schedules the
deferred shutdown only when q carries the auto_close=true marker — a
plain GET /exit without that marker is not handled by the exit logic at
all and falls through to the inherited static-file handler. -/
theorem c3_exit_acknowledged (html now p q : List Char) (st : Server.State)
    (hp : "/exit".data.isPrefixOf p = true)
    (hq1 : "/exit".data.isPrefixOf q = true)
    (hq2 : strContains "auto_close=true".data q = true) :
    (∃ body, (Server.do_POST p st).2 = Server.Response.ok "text/plain" body)
    ∧ (Server.do_POST p st).1.terminated = st.terminated
    ∧ (Server.do_POST p st).1.exitKind = st.exitKind
    ∧ Server.do_GET html now q st
        = ({ st with tasksScheduled := st.tasksScheduled + 1 },
           .ok "text/plain" "Shutting down from tab close".data)
    ∧ (Server.do_GET html now q st).1.terminated = st.terminated
    ∧ Server.do_GET html now "/exit".data st
        = (st, Server.Response.fallback "/exit".data) := by
  have hget : Server.do_GET html now q st
      = ({ st with tasksScheduled := st.tasksScheduled + 1 },
         .ok "text/plain" "Shutting down from tab close".data) := by
    unfold Server.do_GET
    rw [if_neg (by intro e; rw [e] at hq1; revert hq1; decide),
      if_neg (by intro e; rw [e] at hq1; revert hq1; decide),
      if_neg (by intro e; rw [e] at hq1; revert hq1; decide),
      if_neg (by intro e; rw [e] at hq1; revert hq1; decide),
      if_pos (by rw [hq1, hq2]; rfl)]
  refine ⟨?_, ?_, ?_, hget, ?_, ?_⟩
  · unfold Server.do_POST
    rw [if_pos (Or.inr hp)]
    cases hsp : st.shutdown_in_progress <;> simp [hsp]
  · unfold Server.do_POST
    rw [if_pos (Or.inr hp)]
    cases hsp : st.shutdown_in_progress <;> simp [hsp]
  · unfold Server.do_POST
    rw [if_pos (Or.inr hp)]
    cases hsp : st.shutdown_in_progress <;> simp [hsp]
  · rw [hget]
  · unfold Server.do_GET
    rw [if_neg (by decide), if_neg (by decide), if_neg (by decide),
      if_neg (by decide), if_neg (by decide)]

/-- C3 witness: the hypotheses of the amended theorem hold at the concrete
POST path /exit (the plain exit-button request) and the concrete GET
beacon path /exit?auto_close=true&t=1, and the theorem applies there; the
POST no-termination conjunct and the beacon GET conjunct are extracted at
the initial state. -/
theorem c3_witness :
    "/exit".data.isPrefixOf "/exit".data = true
    ∧ "/exit".data.isPrefixOf "/exit?auto_close=true&t=1".data = true
    ∧ strContains "auto_close=true".data "/exit?auto_close=true&t=1".data = true
    ∧ (Server.do_POST "/exit".data Server.initialState).1.terminated
        = Server.initialState.terminated
    ∧ Server.do_GET [] [] "/exit?auto_close=true&t=1".data Server.initialState
        = ({ Server.initialState with tasksScheduled := 1 },
           .ok "text/plain" "Shutting down from tab close".data) :=
  ⟨by decide, by decide, by decide,
   (c3_exit_acknowledged [] [] "/exit".data "/exit?auto_close=true&t=1".data
      Server.initialState (by decide) (by decide) (by decide)).2.1,
   (c3_exit_acknowledged [] [] "/exit".data "/exit?auto_close=true&t=1".data
      Server.initialState (by decide) (by decide) (by decide)).2.2.2.1⟩

/-- C3 counterexample: a plain GET /exit — with no auto_close marker — is
not answered with a 200 text/plain acknowledgment and does not route into
the Shutdown Coordinator: it falls through to the inherited static-file
handler, with the server state unchanged. -/
theorem c3_counterexample :
    Server.do_GET [] [] "/exit".data Server.initialState
      = (Server.initialState, Server.Response.fallback "/exit".data)
    ∧ (Server.do_GET [] [] "/exit".data Server.initialState).2.statusCode
      ≠ some 200 := by
  decide

/-- C9: for every source document with no closing body tag, each of the
three injectors appends its full exit markup at the very end of the
document instead of dropping it — so the served document still contains
the exit UI (witnessed by the injected exit button element). -/
theorem c9_append_when_no_body_tag (html : List Char)
    (h : strContains bodyCloseTag html = false) :
    Server.get_modified_html html = html ++ Server.EXIT_BUTTON_SCRIPT.data
    ∧ MacosApp.modify_html_content html = html ++ MacosApp.exit_script.data
    ∧ WinExe.inject_exit_button html = html ++ WinExe.button_html.data
    ∧ strContains exitMarkup (Server.get_modified_html html) = true := by
  have e1 : Server.get_modified_html html = html ++ Server.EXIT_BUTTON_SCRIPT.data := by
    unfold Server.get_modified_html
    rw [if_neg (by simp [h])]
  refine ⟨e1, ?_, ?_, ?_⟩
  · unfold MacosApp.modify_html_content
    rw [if_neg (by simp [h])]
  · unfold WinExe.inject_exit_button
    rw [if_neg (by simp [h])]
  · rw [e1]
    exact strContains_append_right _ _ _ ebs_contains_marker

/-- C9 witness: the hypothesis holds at a concrete document that lacks a
closing body tag, and the theorem applies there; its Server conjunct is
extracted. -/
theorem c9_witness :
    strContains bodyCloseTag "<html><p>Hello".data = false
    ∧ Server.get_modified_html "<html><p>Hello".data
        = "<html><p>Hello".data ++ Server.EXIT_BUTTON_SCRIPT.data :=
  ⟨by decide, (c9_append_when_no_body_tag "<html><p>Hello".data (by decide)).1⟩

/-- C1 amended: the GET / response body is the same on every request — the
handler always answers with the pure injection of the configured document
(the maxsize-1 cache stores exactly this value), so repeated requests
cannot duplicate markup — and for every source document that does not
already contain the exit markup (split as a ++ closing-body-tag ++ b with
the stated border conditions) the response contains exactly one instance
of the exit-control markup.  The injection itself, however, is
unconditional rather than idempotent: a source document that already
carries exit UI markers receives a second copy (see the counterexample). -/
theorem c1_injection (a b html now : List Char) (st st2 : Server.State)
    (hno : noOccWithin bodyCloseTag a (bodyCloseTag ++ b) = true)
    (hb : strContains bodyCloseTag b = false)
    (ha0 : countOcc exitMarkup a = 0)
    (hb0 : countOcc exitMarkup b = 0)
    (hca : noCross exitMarkup a
        ((Server.EXIT_BUTTON_SCRIPT.data ++ bodyCloseTag) ++ b) = true)
    (hcb : noCross exitMarkup
        (Server.EXIT_BUTTON_SCRIPT.data ++ bodyCloseTag) b = true) :
    Server.get_modified_html (a ++ bodyCloseTag ++ b)
        = a ++ Server.EXIT_BUTTON_SCRIPT.data ++ bodyCloseTag ++ b
    ∧ countOcc exitMarkup (Server.get_modified_html (a ++ bodyCloseTag ++ b)) = 1
    ∧ (Server.do_GET html now "/".data st).2 = (Server.do_GET html now "/".data st2).2
    ∧ (Server.do_GET html now "/".data st).2
        = .ok "text/html" (Server.get_modified_html html) := by
  have e1 := get_modified_html_split a b hno hb
  refine ⟨e1, ?_, ?_, ?_⟩
  · rw [e1]
    have reassoc : a ++ Server.EXIT_BUTTON_SCRIPT.data ++ bodyCloseTag ++ b
        = a ++ ((Server.EXIT_BUTTON_SCRIPT.data ++ bodyCloseTag) ++ b) := by
      simp [List.append_assoc]
    rw [reassoc, count_after_injection a b hca hcb, ha0, hb0]
  · unfold Server.do_GET
    rw [if_pos rfl]
    rw [if_pos rfl]
  · unfold Server.do_GET
    rw [if_pos rfl]

/-- C1 witness: the border hypotheses of the amended theorem hold at the
concrete source document made of the prefix html-body-Hi followed by the
closing body tag, and the theorem applies there; its counting conjunct is
extracted. -/
theorem c1_witness :
    noOccWithin bodyCloseTag "<html><body>Hi".data (bodyCloseTag ++ []) = true
    ∧ strContains bodyCloseTag ([] : List Char) = false
    ∧ countOcc exitMarkup "<html><body>Hi".data = 0
    ∧ countOcc exitMarkup ([] : List Char) = 0
    ∧ noCross exitMarkup "<html><body>Hi".data
        ((Server.EXIT_BUTTON_SCRIPT.data ++ bodyCloseTag) ++ []) = true
    ∧ noCross exitMarkup (Server.EXIT_BUTTON_SCRIPT.data ++ bodyCloseTag) [] = true
    ∧ countOcc exitMarkup
        (Server.get_modified_html ("<html><body>Hi".data ++ bodyCloseTag ++ [])) = 1 :=
  ⟨by decide, by decide, by decide, by decide, by decide,
   noCross_nil _ _,
   (c1_injection "<html><body>Hi".data [] [] [] Server.initialState Server.initialState
      (by decide) (by decide) (by decide) (by decide) (by decide)
      (noCross_nil _ _)).2.1⟩

/-- C1 counterexample: a source document that already contains the exit
button element — an exit UI marker — is not left alone: the injection is
unconditional, so the served document contains two instances of the
exit-control markup rather than exactly one. -/
theorem c1_counterexample :
    countOcc exitMarkup
        (Server.get_modified_html
          "<html><body><button id=\"exit-app-button\">Exit App</button></body>".data) = 2
    ∧ countOcc exitMarkup
        (Server.get_modified_html
          "<html><body><button id=\"exit-app-button\">Exit App</button></body>".data)
      ≠ 1 := by
  have hsplit :
      "<html><body><button id=\"exit-app-button\">Exit App</button></body>".data
        = "<html><body><button id=\"exit-app-button\">Exit App</button>".data
            ++ bodyCloseTag ++ ([] : List Char) := by decide
  have e1 := get_modified_html_split
      "<html><body><button id=\"exit-app-button\">Exit App</button>".data []
      (by decide) (by decide)
  have reassoc :
      "<html><body><button id=\"exit-app-button\">Exit App</button>".data
          ++ Server.EXIT_BUTTON_SCRIPT.data ++ bodyCloseTag ++ ([] : List Char)
        = "<html><body><button id=\"exit-app-button\">Exit App</button>".data
            ++ ((Server.EXIT_BUTTON_SCRIPT.data ++ bodyCloseTag) ++ ([] : List Char)) := by
    simp [List.append_assoc]
  have hcount : countOcc exitMarkup
      (Server.get_modified_html
        "<html><body><button id=\"exit-app-button\">Exit App</button></body>".data) = 2 := by
    rw [hsplit, e1, reassoc,
      count_after_injection _ [] (by decide) (noCross_nil _ _)]
    decide
  refine ⟨hcount, ?_⟩
  rw [hcount]
  decide
